import Mathlib

/-!
Verification of the request-admission middleware pipeline of flagr
(pkg/config/middleware.go): configuration-driven key resolution, the JWT
auth gate with its whitelist, the group-claim gate, the error responder,
the telemetry gates, and the assembled negroni middleware chain.

Each definition is a shallow embedding of the corresponding Go function;
line numbers in the comments refer to pkg/config/middleware.go.
-/

namespace Flagr

/-- The flat configuration record (the fields of `Config` read by
pkg/config/middleware.go).  `WebPrefixPath` models the option named
WebPrefix in the source; `PrometheusPath` models
Global.Prometheus.ScrapePath, whose definition is outside the middleware
file (it is the configured metrics scrape path). -/
structure Config where
  MiddlewareGzipEnabled : Bool
  MiddlewareVerboseLoggerEnabled : Bool
  StatsdEnabled : Bool
  PrometheusEnabled : Bool
  NewRelicEnabled : Bool
  CORSEnabled : Bool
  JWTAuthEnabled : Bool
  JWTAuthSigningMethod : String
  JWTAuthSecret : String
  JWTAuthPrefixWhitelistPaths : List String
  JWTAuthExactWhitelistPaths : List String
  JWTAuthCookieTokenName : String
  JWTAuthUserProperty : String
  JWTAuthDebug : Bool
  JWTAuthNoTokenStatusCode : Nat
  JWTAuthNoTokenRedirectURL : String
  JWTAuthRequireGroupClaim : String
  WebPrefixPath : String
  PProfEnabled : Bool
  PrometheusPath : String
deriving DecidableEq

/-- An HTTP response as far as the middleware observes it: status code,
headers it sets, body it writes.  (Content-Type headers and the optional
HTML snippet Go's http.Redirect writes for GET requests are elided; the
`Location` and `WWW-Authenticate` headers and the fixed 401 body are
modelled.) -/
structure HttpResponse where
  status : Nat
  headers : List (String × String)
  body : String
deriving DecidableEq

/-- An HTTP request as far as the middleware reads it.  `staticFile` is
the (external-filesystem) answer of the negroni Static middleware: the
file it would serve for this request, if any. -/
structure Request where
  path : String
  requestURI : String
  method : String
  cookies : List (String × String)
  authHeader : Option String
  staticFile : Option String
deriving DecidableEq

/-- Boolean prefix test on strings, as Go's strings.HasPrefix. -/
def hasPfx (s pre : String) : Bool :=
  pre.data.isPrefixOf s.data

/-- Go's strings.TrimPrefix: drop `pre` from the front of `s` when it is
a prefix, otherwise return `s` unchanged. -/
def trimPfx (s pre : String) : String :=
  if hasPfx s pre then ⟨s.data.drop pre.data.length⟩ else s

/-! ## Key material resolution (middleware.go lines 127-142) -/

/-- An RSA public key, kept opaque: only its identity matters here. -/
structure RSAPub where
  material : String
deriving DecidableEq

/-- The signing method selected by setupJWTAuthMiddleware. -/
inductive SigningMethod
  | HS256
  | RS256
deriving DecidableEq

/-- The validationKey interface value: symmetric secret bytes, a parsed
RSA public key, or the nil value left by a failed RSA parse. -/
inductive ValidationKey
  | bytes (secret : String)
  | rsaKey (key : RSAPub)
  | nullKey
deriving DecidableEq

/-- Result of the signing-method switch in setupJWTAuthMiddleware:
(signingMethod, validationKey, errParsingKey). -/
structure KeyResolution where
  signingMethod : SigningMethod
  validationKey : ValidationKey
  errParsingKey : Option String
deriving DecidableEq

/-- The switch on Config.JWTAuthSigningMethod (lines 132-142).
jwt.ParseRSAPublicKeyFromPEM is external crypto, passed in abstractly as
`parseRSA`.  Note the default branch: signingMethod falls back to HS256
and validationKey is the empty byte slice, not the configured secret. -/
def setupJWTAuthKeyResolution (parseRSA : String → Except String RSAPub)
    (cfg : Config) : KeyResolution :=
  if cfg.JWTAuthSigningMethod = "HS256" then
    ⟨.HS256, .bytes cfg.JWTAuthSecret, none⟩
  else if cfg.JWTAuthSigningMethod = "RS256" then
    match parseRSA cfg.JWTAuthSecret with
    | .ok k => ⟨.RS256, .rsaKey k, none⟩
    | .error e => ⟨.RS256, .nullKey, some e⟩
  else
    ⟨.HS256, .bytes "", none⟩

/-! ## Error responder (middleware.go lines 169-179) -/

/-- jwtErrorHandler: on JWTAuthNoTokenStatusCode = 307
(http.StatusTemporaryRedirect) redirect to JWTAuthNoTokenRedirectURL;
on every other configured value answer 401 with a WWW-Authenticate
challenge whose realm is that same URL and the fixed body written by
http.Error.  The `err` argument is received and ignored, exactly as in
the source. -/
def jwtErrorHandler (cfg : Config) (err : String) : HttpResponse :=
  if cfg.JWTAuthNoTokenStatusCode = 307 then
    { status := 307
      headers := [("Location", cfg.JWTAuthNoTokenRedirectURL)]
      body := "" }
  else
    { status := 401
      headers := [("WWW-Authenticate",
        "Bearer realm=\"" ++ cfg.JWTAuthNoTokenRedirectURL ++ "\"")]
      body := "Not authorized\n" }

/-- The three rejection reasons of the spec's data model. -/
inductive RejectionReason
  | NoToken
  | InvalidToken
  | NotInRequiredGroup
deriving DecidableEq

/-- The diagnostic string each rejection site hands to jwtErrorHandler:
the jwt middleware passes its error text for missing/invalid tokens and
requireGroupClaim.ServeHTTP (line 254) passes its fixed message. -/
def reasonMessage : RejectionReason → String
  | .NoToken => "Required authorization token not found"
  | .InvalidToken => "Token is invalid"
  | .NotInRequiredGroup => "Not member of authorized group"

/-- The response a rejection produces: every rejection site routes
through jwtErrorHandler with only the diagnostic string varying. -/
def rejectionResponse (cfg : Config) (r : RejectionReason) : HttpResponse :=
  jwtErrorHandler cfg (reasonMessage r)

/-! ## Token extraction (middleware.go lines 152-161) -/

/-- Go's r.Cookie(name): the first cookie with the given name, if any. -/
def getCookie (req : Request) (name : String) : Option String :=
  (req.cookies.find? (fun c => c.1 == name)).map (fun c => c.2)

/-- The cookie extractor closure (lines 153-159): a cookie-read error
yields ("", nil), otherwise the cookie's value. -/
def cookieTokenExtractor (cfg : Config) (req : Request) : Except String String :=
  match getCookie req cfg.JWTAuthCookieTokenName with
  | none => .ok ""
  | some v => .ok v

/-- Modelled from the spec: go-jwt-middleware's FromAuthHeader is not
under src/; per the spec it reads the standard bearer-token
Authorization header ("fall back to the standard bearer-token
Authorization header"): empty or missing header yields no token, a
two-field "Bearer tok" value yields tok, anything else is an error. -/
def fromAuthHeader (req : Request) : Except String String :=
  match req.authHeader with
  | none => .ok ""
  | some h =>
    if h = "" then .ok ""
    else
      let parts := (h.splitOn " ").filter (fun w => w ≠ "")
      match parts with
      | [scheme, tok] =>
        if scheme.toLower = "bearer" then .ok tok
        else .error "Authorization header format must be Bearer \x7btoken\x7d"
      | _ => .error "Authorization header format must be Bearer \x7btoken\x7d"

/-- Modelled from the spec: go-jwt-middleware's FromFirst combinator is
not under src/; per the spec it tries the extractors in order ("check a
named cookie first; if absent or unreadable, fall back"): the first
error aborts, the first non-empty token wins, otherwise no token. -/
def fromFirst (exs : List (Request → Except String String)) (req : Request) :
    Except String String :=
  match exs with
  | [] => .ok ""
  | ex :: rest =>
    match ex req with
    | .error e => .error e
    | .ok tok => if tok = "" then fromFirst rest req else .ok tok

/-- The Extractor wired in setupJWTAuthMiddleware (lines 152-161):
FromFirst of the cookie closure and FromAuthHeader. -/
def extractToken (cfg : Config) (req : Request) : Except String String :=
  fromFirst [cookieTokenExtractor cfg, fromAuthHeader] req

/-! ## Tokens, claims and the request context -/

/-- A JSON claim value, as far as the group check inspects it. -/
inductive ClaimValue
  | null
  | str (s : String)
  | strList (l : List String)
  | num (n : Int)
  | other
deriving DecidableEq

/-- jwt.MapClaims: claim name to value (map modelled as the first-match
association list). -/
structure Claims where
  entries : List (String × ClaimValue)
deriving DecidableEq

/-- Map lookup: claims[k], nil when absent. -/
def Claims.get (c : Claims) (k : String) : Option ClaimValue :=
  ((c.entries.find? (fun kv => kv.1 == k)).map (fun kv => kv.2))

/-- A parsed jwt.Token as the middleware reads it: its MapClaims and its
Valid flag. -/
structure Token where
  claims : Claims
  valid : Bool
deriving DecidableEq

/-- The per-request context values the gates communicate through:
the value stored under the whiteListed marker key (line 214) and the
token stored under Config.JWTAuthUserProperty by the jwt middleware. -/
structure Ctx where
  whitelistedVal : Option Bool
  tokenVal : Option Token
deriving DecidableEq

/-- The fresh context a request starts with: neither value set. -/
def emptyCtx : Ctx := ⟨none, none⟩

/-- auth.ServeHTTP's whitelist branch (line 214): store true under the
whiteListed marker. -/
def markWhitelisted (ctx : Ctx) : Ctx := { ctx with whitelistedVal := some true }

/-- The jwt middleware's success path: store the parsed token under the
user-property key. -/
def storeToken (ctx : Ctx) (t : Token) : Ctx := { ctx with tokenVal := some t }

/-! ## The auth gate (middleware.go lines 181-219) -/

/-- The auth struct: the two whitelist rule lists (lines 181-185). -/
structure Auth where
  PrefixWhitelistPaths : List String
  ExactWhitelistPaths : List String
deriving DecidableEq

/-- setupJWTAuthMiddleware's construction of the auth value from the
configuration (lines 144-146). -/
def setupAuthGate (cfg : Config) : Auth :=
  ⟨cfg.JWTAuthPrefixWhitelistPaths, cfg.JWTAuthExactWhitelistPaths⟩

/-- The effective path of auth.whitelist (lines 188-192): the request
path with the configured web prefix trimmed when one is set. -/
def effectivePath (cfg : Config) (req : Request) : String :=
  if cfg.WebPrefixPath ≠ "" then trimPfx req.path cfg.WebPrefixPath else req.path

/-- auth.whitelist (lines 187-208): exact rules are consulted only when
JWTAuthNoTokenStatusCode is 401; prefix rules (non-empty only) are
consulted unconditionally. -/
def authWhitelist (cfg : Config) (a : Auth) (req : Request) : Bool :=
  let path := effectivePath cfg req
  (if cfg.JWTAuthNoTokenStatusCode = 401 then
    a.ExactWhitelistPaths.any (fun p => p == path)
  else false)
  || a.PrefixWhitelistPaths.any (fun p => !(p == "") && hasPfx path p)

/-- What a gate does with a request: hand it (with its context) to the
next handler, or answer with a response itself. -/
inductive GateResult
  | forwarded (ctx : Ctx)
  | rejected (resp : HttpResponse)
deriving DecidableEq

/-- The auth gate's outcome enriched with its observable side effects:
how many times the extractor ran and which raw tokens were handed to the
verifier. -/
structure AuthOutcome where
  result : GateResult
  extractions : Nat
  verified : List String
deriving DecidableEq

/-- The jwt middleware's CheckJWT path used by HandlerWithNext (its
cryptographic parse-and-verify is the abstract `verify`; the Valid check
is explicit as in the middleware): extract; no token or extractor error
rejects via the configured ErrorHandler (jwtErrorHandler); then parse
and verify the extracted token, storing it in the context on success. -/
def checkJWT (cfg : Config) (verify : String → Except String Token)
    (req : Request) (ctx : Ctx) : AuthOutcome :=
  match extractToken cfg req with
  | .error e => ⟨.rejected (jwtErrorHandler cfg e), 1, []⟩
  | .ok tok =>
    if tok = "" then
      ⟨.rejected (jwtErrorHandler cfg (reasonMessage .NoToken)), 1, []⟩
    else
      match verify tok with
      | .error e => ⟨.rejected (jwtErrorHandler cfg e), 1, [tok]⟩
      | .ok t =>
        if t.valid then ⟨.forwarded (storeToken ctx t), 1, [tok]⟩
        else ⟨.rejected (jwtErrorHandler cfg (reasonMessage .InvalidToken)), 1, [tok]⟩

/-- auth.ServeHTTP (lines 212-219): a whitelisted request is marked and
forwarded with no extraction and no verification; otherwise the jwt
middleware runs. -/
def authServeHTTP (cfg : Config) (a : Auth) (verify : String → Except String Token)
    (req : Request) (ctx : Ctx) : AuthOutcome :=
  if authWhitelist cfg a req then ⟨.forwarded (markWhitelisted ctx), 0, []⟩
  else checkJWT cfg verify req ctx

/-! ## The group-claim gate (middleware.go lines 221-258) -/

/-- The requireGroupClaim struct (lines 221-223). -/
structure RequireGroupClaim where
  Group : String
deriving DecidableEq

/-- setupJWTRequireGroupClaimMiddleware (lines 225-229). -/
def setupJWTRequireGroupClaimMiddleware (cfg : Config) : RequireGroupClaim :=
  ⟨cfg.JWTAuthRequireGroupClaim⟩

/-- Modelled from the spec: util.SafeStringSlice is not under src/; per
the spec a groups claim that is "absent, null, or a non-collection
value" collapses to the empty set of strings rather than erroring. -/
def SafeStringSlice : ClaimValue → List String
  | .strList l => l
  | _ => []

/-- requireGroupClaim.checkGroups (lines 231-250): a whitelisted request
passes unconditionally; otherwise the context must hold a valid token
whose groups claim (read defensively) contains the configured group. -/
def checkGroups (c : RequireGroupClaim) (ctx : Ctx) : Bool :=
  if ctx.whitelistedVal.getD false then true
  else
    match ctx.tokenVal with
    | none => false
    | some token =>
      if token.valid then
        (SafeStringSlice ((token.claims.get "groups").getD .null)).any
          (fun s => s == c.Group)
      else false

/-- requireGroupClaim.ServeHTTP (lines 252-258): failing checkGroups
rejects through jwtErrorHandler, otherwise the request is forwarded
unchanged. -/
def requireGroupServeHTTP (cfg : Config) (c : RequireGroupClaim) (ctx : Ctx) :
    GateResult :=
  if checkGroups c ctx then .forwarded ctx
  else .rejected (jwtErrorHandler cfg (reasonMessage .NotInRequiredGroup))

/-! ## The assembled pipeline (middleware.go lines 36-106)

negroni runs the middlewares in the order they are Use'd: the first
Use'd handler is outermost (sees the request first, the response last),
and each handler decides whether to invoke the rest of the chain. -/

/-- The identity of each middleware SetupGlobalMiddleware may Use, in
source order.  The final handler passed to UseHandler (the application,
possibly wrapped by pprof and StripPrefix) is the chain's end, not a
gate. -/
inductive GateTag
  | gzip
  | verboseLogger
  | statsd
  | prometheusG
  | newrelic
  | corsG
  | authG
  | groupG
  | staticG
  | recoveryG
deriving DecidableEq

/-- A printable name for a gate, used as the fault message. -/
def gateName : GateTag → String
  | .gzip => "gzip"
  | .verboseLogger => "verboseLogger"
  | .statsd => "statsd"
  | .prometheusG => "prometheus"
  | .newrelic => "newrelic"
  | .corsG => "cors"
  | .authG => "auth"
  | .groupG => "requireGroupClaim"
  | .staticG => "static"
  | .recoveryG => "recovery"

/-- SetupGlobalMiddleware's Use calls in source order (lines 39-93):
each optional gate is appended when its flag is set; the static
middleware and then the recovery middleware are always appended last. -/
def setupGlobalMiddleware (cfg : Config) : List GateTag :=
  (if cfg.MiddlewareGzipEnabled then [.gzip] else []) ++
  (if cfg.MiddlewareVerboseLoggerEnabled then [.verboseLogger] else []) ++
  (if cfg.StatsdEnabled then [.statsd] else []) ++
  (if cfg.PrometheusEnabled then [.prometheusG] else []) ++
  (if cfg.NewRelicEnabled then [.newrelic] else []) ++
  (if cfg.CORSEnabled then [.corsG] else []) ++
  (if cfg.JWTAuthEnabled then [.authG] else []) ++
  (if cfg.JWTAuthRequireGroupClaim ≠ "" then [.groupG] else []) ++
  [.staticG, .recoveryG]

/-- What comes out of running (part of) the chain: a response, or an
uncaught fault (a Go panic) escaping it. -/
inductive Outcome
  | ok (resp : HttpResponse)
  | fault (msg : String)
deriving DecidableEq

/-- The generic response negroni's Recovery writes after recovering a
panic: 500 Internal Server Error, no internal detail. -/
def recoveryResponse : HttpResponse := ⟨500, [], ""⟩

/-- The metrics page the Prometheus middleware serves on its scrape
path via promhttp (line 290). -/
def metricsResponse : HttpResponse := ⟨200, [], "metrics"⟩

/-- The answer the CORS middleware gives to an OPTIONS preflight it
terminates instead of forwarding. -/
def corsPreflightResponse : HttpResponse := ⟨200, [], ""⟩

/-- A file served by the negroni Static middleware. -/
def staticResponse (body : String) : HttpResponse := ⟨200, [], body⟩

/-- Run a suffix of the Use'd chain on a request.  `verify` abstracts
the jwt parse/verify crypto, `app` is the final handler UseHandler
installs, and `panics` injects a fault into a gate (the gate faults
while handling this request, before invoking the rest).  Gates behave
as their ServeHTTP methods: the decorators forward; the Prometheus gate
serves its scrape path itself; the CORS gate terminates preflights; the
auth and group gates run their models; Static serves a found file; and
Recovery converts a fault of the remaining (inner) chain into the
generic 500 response. -/
def runChain (cfg : Config) (verify : String → Except String Token)
    (panics : GateTag → Bool) (app : Ctx → Outcome) (req : Request) :
    List GateTag → Ctx → Outcome
  | [], ctx => app ctx
  | g :: rest, ctx =>
    if panics g then .fault (gateName g)
    else
      match g with
      | .recoveryG =>
        match runChain cfg verify panics app req rest ctx with
        | .fault _ => .ok recoveryResponse
        | o => o
      | .authG =>
        match (authServeHTTP cfg (setupAuthGate cfg) verify req ctx).result with
        | .forwarded ctx2 => runChain cfg verify panics app req rest ctx2
        | .rejected r => .ok r
      | .groupG =>
        match requireGroupServeHTTP cfg (setupJWTRequireGroupClaimMiddleware cfg) ctx with
        | .forwarded ctx2 => runChain cfg verify panics app req rest ctx2
        | .rejected r => .ok r
      | .prometheusG =>
        if req.path = cfg.PrometheusPath then .ok metricsResponse
        else runChain cfg verify panics app req rest ctx
      | .corsG =>
        if req.method = "OPTIONS" then .ok corsPreflightResponse
        else runChain cfg verify panics app req rest ctx
      | .staticG =>
        match req.staticFile with
        | some body => .ok (staticResponse body)
        | none => runChain cfg verify panics app req rest ctx
      | _ => runChain cfg verify panics app req rest ctx

/-- The fault-free run: no gate panics. -/
def noFault : GateTag → Bool := fun _ => false

/-- The gates that merely pass a request through with its context
unchanged, under the stated side conditions: the decorators always; the
Prometheus gate when the request is not to the scrape path; the CORS
gate when the request is not an OPTIONS preflight. -/
def passThru (cfg : Config) (req : Request) : GateTag → Prop
  | .gzip => True
  | .verboseLogger => True
  | .statsd => True
  | .newrelic => True
  | .prometheusG => req.path ≠ cfg.PrometheusPath
  | .corsG => req.method ≠ "OPTIONS"
  | _ => False

/-! ## Telemetry observations (middleware.go lines 260-305)

The two telemetry gates are modelled at their own boundary: given the
status code the rest of the chain produced (read from the negroni
ResponseWriter after next returns), each gate emits its metric
updates. -/

/-- The four metric instruments the two gates touch. -/
inductive Instrument
  | statsdCount
  | statsdDuration
  | promCounter
  | promLatency
deriving DecidableEq

/-- An instrument update is a latency (duration/histogram) observation
for statsd's TimeInMilliseconds and Prometheus's histogram Observe. -/
def Instrument.isLatency : Instrument → Bool
  | .statsdDuration => true
  | .promLatency => true
  | _ => false

/-- One metric update: which instrument, and the status/URI/method
labels attached to it. -/
structure Obs where
  instrument : Instrument
  status : Nat
  uri : String
  method : String
deriving DecidableEq

/-- statsdMiddleware.ServeHTTP (lines 264-280): unconditionally run the
rest of the chain, then record one count increment and one duration
observation labelled with the final status.  Returns the final status
and the gate's own metric updates. -/
def statsdServeHTTP (req : Request) (innerStatus : Nat) : Nat × List Obs :=
  (innerStatus,
    [⟨.statsdCount, innerStatus, req.requestURI, req.method⟩,
     ⟨.statsdDuration, innerStatus, req.requestURI, req.method⟩])

/-- prometheusMiddleware.ServeHTTP (lines 287-305): a request to the
scrape path is served by the promhttp handler with no metric update at
all; any other request runs the rest of the chain and then records one
counter increment and, when the histogram is wired, one latency
observation, labelled with the final status. -/
def prometheusServeHTTP (cfg : Config) (hasHistogram : Bool) (req : Request)
    (innerStatus : Nat) : Nat × List Obs :=
  if req.path = cfg.PrometheusPath then (200, [])
  else
    (innerStatus,
      [⟨.promCounter, innerStatus, req.requestURI, req.method⟩] ++
      (if hasHistogram then
        [⟨.promLatency, innerStatus, req.requestURI, req.method⟩] else []))

/-! ## Concrete configurations used as test inputs -/

/-- A baseline configuration with flagr-like defaults. -/
def cfgDefault : Config :=
  { MiddlewareGzipEnabled := false
    MiddlewareVerboseLoggerEnabled := false
    StatsdEnabled := false
    PrometheusEnabled := false
    NewRelicEnabled := false
    CORSEnabled := false
    JWTAuthEnabled := false
    JWTAuthSigningMethod := "HS256"
    JWTAuthSecret := ""
    JWTAuthPrefixWhitelistPaths := ["/api/v1/evaluation"]
    JWTAuthExactWhitelistPaths := [""]
    JWTAuthCookieTokenName := "access_token"
    JWTAuthUserProperty := "flagr_user"
    JWTAuthDebug := false
    JWTAuthNoTokenStatusCode := 401
    JWTAuthNoTokenRedirectURL := "/login"
    JWTAuthRequireGroupClaim := ""
    WebPrefixPath := ""
    PProfEnabled := false
    PrometheusPath := "/metrics" }

/-- A configuration selecting an unrecognized signing method with a
non-empty secret. -/
def cfgUnrecognizedMethod : Config :=
  { cfgDefault with JWTAuthSigningMethod := "ES256", JWTAuthSecret := "topsecret" }

/-- A configuration whose missing-token behavior is the redirect status
302 (a redirect status other than 307). -/
def cfgRedirect302 : Config :=
  { cfgDefault with JWTAuthNoTokenStatusCode := 302,
                    JWTAuthNoTokenRedirectURL := "https://login" }

/-- A configuration whose missing-token behavior is the redirect status
307. -/
def cfgRedirect307 : Config :=
  { cfgDefault with JWTAuthNoTokenStatusCode := 307,
                    JWTAuthNoTokenRedirectURL := "https://login" }

/-- A configuration enabling only the statsd telemetry gate. -/
def cfgStatsdOnly : Config := { cfgDefault with StatsdEnabled := true }

/-- A configuration enabling both telemetry gates. -/
def cfgTelemetry : Config :=
  { cfgDefault with StatsdEnabled := true, PrometheusEnabled := true }

/-- A configuration with several decorators enabled, JWT auth disabled,
and a required group claim configured. -/
def cfgGroupNoAuth : Config :=
  { cfgDefault with StatsdEnabled := true, PrometheusEnabled := true,
                    CORSEnabled := true, JWTAuthEnabled := false,
                    JWTAuthRequireGroupClaim := "flagr_admin" }

/-- A plain GET request with no credentials and no static file. -/
def reqPlain : Request :=
  ⟨"/api/v1/flags", "/api/v1/flags", "GET", [], none, none⟩

/-- A GET request carrying both a cookie token and a bearer header. -/
def reqBothTokens : Request :=
  ⟨"/api/v1/flags", "/api/v1/flags", "GET",
   [("access_token", "cookie.tok.en")], some "Bearer header.tok.en", none⟩

/-- A GET request to the Prometheus scrape path. -/
def reqScrape : Request := ⟨"/metrics", "/metrics", "GET", [], none, none⟩

/-- An RSA parser stub used where a concrete parser value is needed and
the RS256 branch is not taken. -/
def parseRSAStub : String → Except String RSAPub :=
  fun _ => .error "pem parse unavailable"

/-- A verifier stub that accepts no token, used where a concrete
verifier value is needed and never invoked. -/
def verifyNone : String → Except String Token :=
  fun _ => .error "signature is invalid"

/-- An application handler that always answers 200. -/
def app200 : Ctx → Outcome := fun _ => .ok ⟨200, [], "ok"⟩

/-! ## Theorems -/

/-- Characterization of auth.whitelist: it accepts exactly when the
effective path equals an exact rule while the missing-token status is
401, or some non-empty prefix rule is a prefix of it. -/
theorem authWhitelist_iff (cfg : Config) (a : Auth) (req : Request) :
    authWhitelist cfg a req = true ↔
      (cfg.JWTAuthNoTokenStatusCode = 401 ∧
        effectivePath cfg req ∈ a.ExactWhitelistPaths) ∨
      (∃ p ∈ a.PrefixWhitelistPaths, p ≠ "" ∧
        hasPfx (effectivePath cfg req) p = true) := by
  by_cases hs : cfg.JWTAuthNoTokenStatusCode = 401 <;>
    simp [authWhitelist, hs, List.any_eq_true]

/-- checkJWT always runs the extractor exactly once. -/
theorem checkJWT_extractions (cfg : Config)
    (verify : String → Except String Token) (req : Request) (ctx : Ctx) :
    (checkJWT cfg verify req ctx).extractions = 1 := by
  unfold checkJWT
  split
  · rfl
  · split
    · rfl
    · split
      · rfl
      · split <;> rfl

/-- C1: the auth gate bypasses authentication — marks the context
whitelisted and forwards with zero extractor runs and zero verifier
calls — exactly when the effective path (the request path with the web
prefix stripped) equals some exact whitelist rule while
JWTAuthNoTokenStatusCode is 401, or some non-empty prefix whitelist
rule is a prefix of it; with any other status the exact rules are never
consulted. -/
theorem authGate_bypass_iff_whitelisted_path (cfg : Config) (a : Auth)
    (verify : String → Except String Token) (req : Request) (ctx : Ctx) :
    authServeHTTP cfg a verify req ctx =
        ⟨.forwarded (markWhitelisted ctx), 0, []⟩ ↔
      (cfg.JWTAuthNoTokenStatusCode = 401 ∧
        effectivePath cfg req ∈ a.ExactWhitelistPaths) ∨
      (∃ p ∈ a.PrefixWhitelistPaths, p ≠ "" ∧
        hasPfx (effectivePath cfg req) p = true) := by
  rw [← authWhitelist_iff cfg a req]
  unfold authServeHTTP
  by_cases hw : authWhitelist cfg a req = true
  · simp [hw]
  · rw [Bool.not_eq_true] at hw
    simp only [hw, Bool.false_eq_true, if_false]
    refine iff_of_false ?_ (by simp [hw])
    intro habs
    have h1 := checkJWT_extractions cfg verify req ctx
    rw [habs] at h1
    simp at h1

/-- C2 counterexample: with the unrecognized signing method "ES256" and
the configured secret "topsecret", the resolved validation key is not
the raw bytes of the configured secret (the default branch at
middleware.go line 141 uses the empty byte slice instead). -/
theorem keyResolution_fallback_ignores_secret :
    (setupJWTAuthKeyResolution parseRSAStub cfgUnrecognizedMethod).validationKey ≠
      ValidationKey.bytes cfgUnrecognizedMethod.JWTAuthSecret := by
  decide

/-- C2 (amended): for every signing-method tag other than HS256 and
RS256, key resolution falls back to HS256 with the verification key
equal to the empty byte string — not the configured secret — and this
resolution never fails (errParsingKey is nil). -/
theorem keyResolution_fallback_hs256_empty_key
    (parseRSA : String → Except String RSAPub) (cfg : Config)
    (h1 : cfg.JWTAuthSigningMethod ≠ "HS256")
    (h2 : cfg.JWTAuthSigningMethod ≠ "RS256") :
    setupJWTAuthKeyResolution parseRSA cfg =
      ⟨.HS256, .bytes "", none⟩ := by
  unfold setupJWTAuthKeyResolution
  rw [if_neg h1, if_neg h2]

/-- Witness for the amended C2 at the concrete configuration with
signing method "ES256". -/
theorem keyResolution_fallback_hs256_empty_key_witness :
    setupJWTAuthKeyResolution parseRSAStub cfgUnrecognizedMethod =
      ⟨.HS256, .bytes "", none⟩ :=
  keyResolution_fallback_hs256_empty_key parseRSAStub cfgUnrecognizedMethod
    (by decide) (by decide)

/-- C3 counterexample: with the redirect status 302 configured,
jwtErrorHandler does not emit a redirect with the configured status: it
answers 401 and sets no Location header (the switch at middleware.go
lines 170-178 only recognizes 307). -/
theorem errorResponder_302_not_redirected :
    cfgRedirect302.JWTAuthNoTokenStatusCode = 302 ∧
    (jwtErrorHandler cfgRedirect302 (reasonMessage .NoToken)).status = 401 ∧
    (jwtErrorHandler cfgRedirect302 (reasonMessage .NoToken)).headers.all
      (fun h => !(h.1 == "Location")) = true := by
  decide

/-- C3 (amended): a rejection is answered with a redirect only when
JWTAuthNoTokenStatusCode is exactly 307 (http.StatusTemporaryRedirect),
in which case the response is a 307 redirect to
JWTAuthNoTokenRedirectURL; for every other configured value — including
other redirect statuses — the response is HTTP 401 with the
WWW-Authenticate Bearer-realm header and the fixed body. -/
theorem errorResponder_shape (cfg : Config) (err : String) :
    (cfg.JWTAuthNoTokenStatusCode = 307 →
      jwtErrorHandler cfg err =
        ⟨307, [("Location", cfg.JWTAuthNoTokenRedirectURL)], ""⟩) ∧
    (cfg.JWTAuthNoTokenStatusCode ≠ 307 →
      jwtErrorHandler cfg err =
        ⟨401, [("WWW-Authenticate",
          "Bearer realm=\"" ++ cfg.JWTAuthNoTokenRedirectURL ++ "\"")],
          "Not authorized\n"⟩) := by
  unfold jwtErrorHandler
  constructor <;> intro h <;> simp [h]

/-- Witness for the amended C3 at the concrete 307 and 302
configurations. -/
theorem errorResponder_shape_witness :
    jwtErrorHandler cfgRedirect307 (reasonMessage .NoToken) =
      ⟨307, [("Location", cfgRedirect307.JWTAuthNoTokenRedirectURL)], ""⟩ ∧
    jwtErrorHandler cfgRedirect302 (reasonMessage .NoToken) =
      ⟨401, [("WWW-Authenticate",
        "Bearer realm=\"" ++ cfgRedirect302.JWTAuthNoTokenRedirectURL ++ "\"")],
        "Not authorized\n"⟩ :=
  ⟨(errorResponder_shape cfgRedirect307 (reasonMessage .NoToken)).1 (by decide),
   (errorResponder_shape cfgRedirect302 (reasonMessage .NoToken)).2 (by decide)⟩

/-- C8: under a fixed configuration the rejection response — status,
headers and body — is identical for every RejectionReason: the reason
string is handed to jwtErrorHandler but never read, so the response
reveals nothing about which check failed. -/
theorem rejection_response_uniform (cfg : Config) (r1 r2 : RejectionReason) :
    rejectionResponse cfg r1 = rejectionResponse cfg r2 := rfl

/-- C6: a request whose context carries whitelisted = true is forwarded
unchanged by the group-claim gate, for every configuration, every
configured required group, and every (possibly absent) claims value in
the context. -/
theorem groupGate_whitelisted_bypass (cfg : Config) (c : RequireGroupClaim)
    (ctx : Ctx) (h : ctx.whitelistedVal = some true) :
    requireGroupServeHTTP cfg c ctx = .forwarded ctx := by
  simp [requireGroupServeHTTP, checkGroups, h]

/-- Witness for C6: a whitelisted context with no claims at all is
forwarded even though a required group is configured. -/
theorem groupGate_whitelisted_bypass_witness :
    requireGroupServeHTTP cfgDefault ⟨"flagr_admin"⟩ ⟨some true, none⟩ =
      .forwarded ⟨some true, none⟩ :=
  groupGate_whitelisted_bypass cfgDefault ⟨"flagr_admin"⟩ ⟨some true, none⟩ rfl

/-- C7: for a non-whitelisted request the group-claim gate either
forwards or rejects with the uniform unauthenticated response (never an
internal error: that response's status is never 500, and a context with
no claims is rejected exactly this way); a groups claim that is not a
collection of strings collapses to the empty set; and the gate forwards
exactly when the context holds a valid token whose defensively read
groups claim contains the required group. -/
theorem groupGate_nonwhitelisted_requires_group (cfg : Config)
    (c : RequireGroupClaim) (ctx : Ctx)
    (h : ctx.whitelistedVal.getD false = false) :
    (requireGroupServeHTTP cfg c ctx = .forwarded ctx ∨
      requireGroupServeHTTP cfg c ctx =
        .rejected (jwtErrorHandler cfg (reasonMessage .NotInRequiredGroup))) ∧
    (ctx.tokenVal = none →
      requireGroupServeHTTP cfg c ctx =
        .rejected (jwtErrorHandler cfg (reasonMessage .NotInRequiredGroup)) ∧
      (jwtErrorHandler cfg (reasonMessage .NotInRequiredGroup)).status ≠ 500) ∧
    (∀ v : ClaimValue, (∀ l, v ≠ ClaimValue.strList l) → SafeStringSlice v = []) ∧
    (requireGroupServeHTTP cfg c ctx = .forwarded ctx ↔
      ∃ t : Token, ctx.tokenVal = some t ∧ t.valid = true ∧
        c.Group ∈ SafeStringSlice ((t.claims.get "groups").getD .null)) := by
  refine ⟨?_, ?_, ?_, ?_⟩
  · unfold requireGroupServeHTTP
    split
    · exact Or.inl rfl
    · exact Or.inr rfl
  · intro ht
    refine ⟨by simp [requireGroupServeHTTP, checkGroups, h, ht], ?_⟩
    unfold jwtErrorHandler
    split <;> simp
  · intro v hv
    cases v with
    | strList l => exact absurd rfl (hv l)
    | _ => rfl
  · by_cases hc : checkGroups c ctx = true
    · simp only [requireGroupServeHTTP, hc, if_true]
      refine iff_of_true trivial ?_
      unfold checkGroups at hc
      rw [h] at hc
      simp only [Bool.false_eq_true, if_false] at hc
      cases htok : ctx.tokenVal with
      | none => rw [htok] at hc; simp at hc
      | some t =>
        rw [htok] at hc
        by_cases hval : t.valid
        · simp only [hval, if_true, List.any_eq_true, beq_iff_eq] at hc
          obtain ⟨s, hs, rfl⟩ := hc
          exact ⟨t, rfl, hval, hs⟩
        · simp [hval] at hc
    · rw [Bool.not_eq_true] at hc
      simp only [requireGroupServeHTTP, hc, Bool.false_eq_true, if_false]
      refine iff_of_false (by simp) ?_
      rintro ⟨t, htok, hval, hmem⟩
      unfold checkGroups at hc
      rw [h, htok] at hc
      simp only [Bool.false_eq_true, if_false, hval, if_true] at hc
      rw [List.any_eq_false] at hc
      exact hc c.Group hmem (by simp)

/-- Witness for C7: a non-whitelisted context with no claims is
rejected with the uniform unauthenticated response. -/
theorem groupGate_nonwhitelisted_requires_group_witness :
    requireGroupServeHTTP cfgDefault ⟨"flagr_admin"⟩ emptyCtx =
      .rejected (jwtErrorHandler cfgDefault (reasonMessage .NotInRequiredGroup)) :=
  ((groupGate_nonwhitelisted_requires_group cfgDefault ⟨"flagr_admin"⟩ emptyCtx
    rfl).2.1 rfl).1

/-- C5: whenever the configured cookie holds a non-empty token, that
token is the one extracted and the one handed to the verifier,
regardless of any Authorization header; the Authorization header is
consulted only when no cookie token is obtained. -/
theorem cookie_token_precedence (cfg : Config)
    (verify : String → Except String Token) (req : Request) (ctx : Ctx) :
    (∀ v : String, getCookie req cfg.JWTAuthCookieTokenName = some v → v ≠ "" →
      extractToken cfg req = .ok v ∧
      (checkJWT cfg verify req ctx).verified = [v]) ∧
    (getCookie req cfg.JWTAuthCookieTokenName = none →
      extractToken cfg req = fromAuthHeader req) := by
  constructor
  · intro v hv hne
    have hex : extractToken cfg req = .ok v := by
      simp [extractToken, fromFirst, cookieTokenExtractor, hv, hne]
    refine ⟨hex, ?_⟩
    unfold checkJWT
    rw [hex]
    simp only [hne, if_false]
    cases hvf : verify v with
    | error e => rfl
    | ok t => simp only; split <;> rfl
  · intro hnone
    simp only [extractToken, fromFirst, cookieTokenExtractor, hnone]
    cases hfa : fromAuthHeader req with
    | error e => rfl
    | ok t =>
      by_cases ht : t = "" <;> simp [ht]

/-- Witness for C5: a request carrying both a cookie token and a bearer
Authorization header extracts and verifies the cookie's token. -/
theorem cookie_token_precedence_witness :
    extractToken cfgDefault reqBothTokens = .ok "cookie.tok.en" ∧
    (checkJWT cfgDefault verifyNone reqBothTokens emptyCtx).verified =
      ["cookie.tok.en"] :=
  (cookie_token_precedence cfgDefault verifyNone reqBothTokens emptyCtx).1
    "cookie.tok.en" (by decide) (by decide)

/-- C4 (code bug evidence): with only the statsd telemetry gate enabled,
the assembled chain is [statsd, static, recovery] — the recovery gate is
Use'd last and is therefore the innermost stage, not the outermost — and
a fault raised inside the statsd gate escapes the pipeline uncaught
instead of being converted to the generic 500 response, even though the
recovery gate is present in the chain. -/
theorem recovery_innermost_statsd_fault_uncaught :
    setupGlobalMiddleware cfgStatsdOnly =
      [GateTag.statsd, GateTag.staticG, GateTag.recoveryG] ∧
    runChain cfgStatsdOnly verifyNone
      (fun g => match g with | GateTag.statsd => true | _ => false)
      app200 reqPlain (setupGlobalMiddleware cfgStatsdOnly) emptyCtx =
      .fault "statsd" ∧
    Outcome.fault "statsd" ≠ Outcome.ok recoveryResponse := by
  refine ⟨by decide, by decide, by decide⟩

/-- C9 counterexample: with both telemetry gates enabled, a request to
the Prometheus scrape path still produces a latency observation — the
statsd gate, which wraps the Prometheus gate and has no scrape-path
exemption, records its duration metric for it. -/
theorem scrape_path_statsd_latency_observed :
    reqScrape.path = cfgTelemetry.PrometheusPath ∧
    GateTag.statsd ∈ setupGlobalMiddleware cfgTelemetry ∧
    ((statsdServeHTTP reqScrape
        (prometheusServeHTTP cfgTelemetry true reqScrape 200).1).2.any
      (fun o => o.instrument.isLatency)) = true := by
  refine ⟨by decide, by decide, by decide⟩

/-- C9 (amended): for every request not to the Prometheus scrape path,
the statsd gate records exactly one duration observation and one count
increment, and the Prometheus gate exactly one latency observation (when
its histogram is wired) and one counter increment, all labelled with the
final response status produced by the rest of the chain, whether that
status came from forwarding or from a later rejection; a scrape-path
request produces no observation at all from the Prometheus gate (though
an enabled statsd gate still observes it). -/
theorem telemetry_observation_shape (cfg : Config) (hh : Bool)
    (req : Request) (s : Nat) (hne : req.path ≠ cfg.PrometheusPath) :
    ((statsdServeHTTP req s).1 = s ∧
     (statsdServeHTTP req s).2.filter (fun o => o.instrument.isLatency) =
       [⟨.statsdDuration, s, req.requestURI, req.method⟩] ∧
     (statsdServeHTTP req s).2.filter (fun o => !o.instrument.isLatency) =
       [⟨.statsdCount, s, req.requestURI, req.method⟩]) ∧
    ((prometheusServeHTTP cfg hh req s).1 = s ∧
     (prometheusServeHTTP cfg true req s).2.filter
        (fun o => o.instrument.isLatency) =
       [⟨.promLatency, s, req.requestURI, req.method⟩] ∧
     (prometheusServeHTTP cfg hh req s).2.filter
        (fun o => o.instrument == .promCounter) =
       [⟨.promCounter, s, req.requestURI, req.method⟩]) ∧
    (∀ req2 : Request, req2.path = cfg.PrometheusPath →
      (prometheusServeHTTP cfg hh req2 s).2 = []) := by
  refine ⟨⟨rfl, ?_, ?_⟩, ⟨?_, ?_, ?_⟩, ?_⟩
  · simp [statsdServeHTTP, Instrument.isLatency]
  · simp [statsdServeHTTP, Instrument.isLatency]
  · simp [prometheusServeHTTP, hne]
  · simp [prometheusServeHTTP, hne, Instrument.isLatency]
  · cases hh <;> simp [prometheusServeHTTP, hne, Instrument.isLatency]
  · intro req2 h2
    simp [prometheusServeHTTP, h2]

/-- Witness for the amended C9 at a concrete non-scrape request with
final status 401, plus the scrape-path exemption of the Prometheus
gate. -/
theorem telemetry_observation_shape_witness :
    (statsdServeHTTP reqPlain 401).2.filter (fun o => o.instrument.isLatency) =
      [⟨.statsdDuration, 401, reqPlain.requestURI, reqPlain.method⟩] ∧
    (prometheusServeHTTP cfgTelemetry true reqPlain 401).2.filter
        (fun o => o.instrument.isLatency) =
      [⟨.promLatency, 401, reqPlain.requestURI, reqPlain.method⟩] ∧
    (prometheusServeHTTP cfgTelemetry true reqScrape 401).2 = [] :=
  ⟨(telemetry_observation_shape cfgTelemetry true reqPlain 401
      (by decide)).1.2.1,
   (telemetry_observation_shape cfgTelemetry true reqPlain 401
      (by decide)).2.1.2.1,
   (telemetry_observation_shape cfgTelemetry true reqPlain 401
      (by decide)).2.2 reqScrape rfl⟩

/-- Membership in an optional singleton. -/
theorem mem_ite_singleton {α : Type} (a x : α) (p : Prop) [Decidable p] :
    (a ∈ (if p then [x] else [])) ↔ p ∧ a = x := by
  split <;> simp_all

/-- Pass-through gates do not alter the run of the rest of the chain in
a fault-free execution. -/
theorem runChain_append_passthru (cfg : Config)
    (verify : String → Except String Token) (app : Ctx → Outcome)
    (req : Request) (gs rest : List GateTag) (ctx : Ctx)
    (h : ∀ g ∈ gs, passThru cfg req g) :
    runChain cfg verify noFault app req (gs ++ rest) ctx =
      runChain cfg verify noFault app req rest ctx := by
  induction gs with
  | nil => rfl
  | cons g gs ih =>
    have hg : passThru cfg req g := h g (List.mem_cons_self g gs)
    have hrest : ∀ x ∈ gs, passThru cfg req x :=
      fun x hx => h x (List.mem_cons_of_mem g hx)
    rw [List.cons_append]
    cases g with
    | gzip => exact ih hrest
    | verboseLogger => exact ih hrest
    | statsd => exact ih hrest
    | newrelic => exact ih hrest
    | prometheusG =>
      have hP : req.path ≠ cfg.PrometheusPath := hg
      show (if req.path = cfg.PrometheusPath then Outcome.ok metricsResponse
        else runChain cfg verify noFault app req (gs ++ rest) ctx) = _
      rw [if_neg hP]
      exact ih hrest
    | corsG =>
      have hC : req.method ≠ "OPTIONS" := hg
      show (if req.method = "OPTIONS" then Outcome.ok corsPreflightResponse
        else runChain cfg verify noFault app req (gs ++ rest) ctx) = _
      rw [if_neg hC]
      exact ih hrest
    | authG => exact hg.elim
    | groupG => exact hg.elim
    | staticG => exact hg.elim
    | recoveryG => exact hg.elim

/-- C10: the group-claim gate is part of the assembled chain exactly
when JWTAuthRequireGroupClaim is non-empty, independently of
JWTAuthEnabled; and with JWT auth disabled but a required group
configured, a fault-free run of the assembled chain on any request
(one not intercepted earlier: not the Prometheus scrape path and not a
CORS preflight) is rejected by the group gate — nothing ever set the
whitelisted flag or stored claims, so every such request is denied
before reaching the static or application handler. -/
theorem groupGate_chain_membership_and_default_deny (cfg : Config) :
    (GateTag.groupG ∈ setupGlobalMiddleware cfg ↔
      cfg.JWTAuthRequireGroupClaim ≠ "") ∧
    (∀ (verify : String → Except String Token) (app : Ctx → Outcome)
        (req : Request),
      cfg.JWTAuthEnabled = false → cfg.JWTAuthRequireGroupClaim ≠ "" →
      req.path ≠ cfg.PrometheusPath → req.method ≠ "OPTIONS" →
      runChain cfg verify noFault app req (setupGlobalMiddleware cfg)
          emptyCtx =
        .ok (jwtErrorHandler cfg (reasonMessage .NotInRequiredGroup))) := by
  constructor
  · simp [setupGlobalMiddleware, List.mem_append, mem_ite_singleton]
  · intro verify app req hA hG hP hC
    have hchain : setupGlobalMiddleware cfg =
        ((if cfg.MiddlewareGzipEnabled then [GateTag.gzip] else []) ++
         ((if cfg.MiddlewareVerboseLoggerEnabled then [GateTag.verboseLogger]
            else []) ++
          ((if cfg.StatsdEnabled then [GateTag.statsd] else []) ++
           ((if cfg.PrometheusEnabled then [GateTag.prometheusG] else []) ++
            ((if cfg.NewRelicEnabled then [GateTag.newrelic] else []) ++
             (if cfg.CORSEnabled then [GateTag.corsG] else [])))))) ++
        (GateTag.groupG :: [GateTag.staticG, GateTag.recoveryG]) := by
      simp [setupGlobalMiddleware, hA, hG, List.append_assoc]
    rw [hchain, runChain_append_passthru cfg verify app req _ _ emptyCtx ?_]
    · simp [runChain, noFault, requireGroupServeHTTP, checkGroups,
        setupJWTRequireGroupClaimMiddleware, emptyCtx]
    · intro g hgmem
      cases g
      case gzip => trivial
      case verboseLogger => trivial
      case statsd => trivial
      case newrelic => trivial
      case prometheusG => exact hP
      case corsG => exact hC
      all_goals
        exfalso
        revert hgmem
        simp [List.mem_append, mem_ite_singleton]

/-- Witness for C10 at a concrete configuration with statsd,
Prometheus and CORS enabled, JWT auth disabled and required group
"flagr_admin": the group gate is in the chain and a plain GET request
is denied. -/
theorem groupGate_chain_membership_and_default_deny_witness :
    GateTag.groupG ∈ setupGlobalMiddleware cfgGroupNoAuth ∧
    runChain cfgGroupNoAuth verifyNone noFault app200 reqPlain
        (setupGlobalMiddleware cfgGroupNoAuth) emptyCtx =
      .ok (jwtErrorHandler cfgGroupNoAuth (reasonMessage .NotInRequiredGroup)) :=
  ⟨(groupGate_chain_membership_and_default_deny cfgGroupNoAuth).1.mpr
      (by decide),
   (groupGate_chain_membership_and_default_deny cfgGroupNoAuth).2 verifyNone
      app200 reqPlain rfl (by decide) (by decide) (by decide)⟩

end Flagr
